import Mathlib

/-!
Shallow embedding of the retrieval and orchestration core of the Quita Goiás
RAG chat assistant (`vector_retriever.py`, `rag_chain.py`, `settings.py`,
`database.py`).

Modelling conventions:
* scores, timestamps and the derived durations are rationals (`ℚ`), standing
  in for Python floats / `datetime` values (`total_seconds` differences);
* each fallible external collaborator (Chroma `similarity_search_with_score`,
  the cross-encoder `predict`, the LLM `ainvoke`, the token counters, the
  database commit) is a function returning `Except String _`, where `error`
  models a raised exception carrying `str(e)`;
* Python `list.sort` is a stable sort and is embedded as `List.mergeSort`
  (stable by the library theorems): `sort(key=lambda x: x[1], reverse=True)`
  compares keys with the reversed order, keeping equal keys in input order;
* the persistence effect of a pipeline run is made explicit: `generate` and
  `generate_response` also return the list of `ChatHistory` rows committed
  during the call.
-/

/-- A LangChain `Document`: a retrievable chunk of text with its metadata. -/
structure Document where
  page_content : String
  metadata : List (String × String) := []
deriving DecidableEq, Repr

/-- The retrieval-relevant configuration of `settings.py`
(defaults `SEARCH_K_RAW = 20`, `SEARCH_K_FINAL = 3`). -/
structure Settings where
  SEARCH_K_RAW : Nat := 20
  SEARCH_K_FINAL : Nat := 3
deriving DecidableEq, Repr

/-- External collaborators of `VectorRetriever`: the Chroma vector store
(`similarity_search_with_score`, returning (document, distance) pairs, may
raise) and the cross-encoder (`predict`, one relevance score per pair, may
raise). -/
structure VectorRetriever where
  similarity_search_with_score : String → Nat → Except String (List (Document × ℚ))
  predict : List (String × String) → Except String (List ℚ)

/-- Comparator of `reranked_results.sort(key=lambda x: x[1], reverse=True)`:
descending by the re-rank score, stable on ties. -/
def rerank_le (a b : (Document × ℚ) × ℚ) : Bool :=
  decide (b.2 ≤ a.2)

/-- Comparator of `results_with_scores.sort(key=lambda x: x[1])`:
ascending by the distance score (smaller is better), stable on ties. -/
def distance_le (a b : Document × ℚ) : Bool :=
  decide (a.2 ≤ b.2)

/-- Method `retrieve_context_with_scores` of `vector_retriever.py`:
recall `SEARCH_K_RAW` candidates (this call is outside the `try` block, so a
store failure propagates), return `[]` on empty recall, then inside the `try`
block score all (query, content) pairs in one batch, stably sort descending by
the new score, truncate to `SEARCH_K_FINAL` and keep the re-rank score; a
scorer exception degrades to `[]`. -/
def retrieve_context_with_scores (r : VectorRetriever) (cfg : Settings)
    (query : String) : Except String (List (Document × ℚ)) :=
  match r.similarity_search_with_score query cfg.SEARCH_K_RAW with
  | Except.error e => Except.error e
  | Except.ok [] => Except.ok []
  | Except.ok results_with_scores =>
      match r.predict (results_with_scores.map fun p => (query, p.1.page_content)) with
      | Except.error _ => Except.ok []
      | Except.ok rerank_scores =>
        Except.ok (((((results_with_scores.zip rerank_scores).mergeSort
          rerank_le)).take cfg.SEARCH_K_FINAL).map fun p => (p.1.1, p.2))

/-- Method `retrieve_context`: the same two-stage retrieval, keeping only the
documents. -/
def retrieve_context (r : VectorRetriever) (cfg : Settings) (query : String) :
    Except String (List Document) :=
  (retrieve_context_with_scores r cfg query).map fun rs => rs.map Prod.fst

/-- Method `retrieve_context_vector_search_only`: recall `SEARCH_K_FINAL`
chunks directly, return `[]` on empty recall, stably sort ascending by
distance; the whole body is inside the `try` block, so any exception degrades
to `[]`. -/
def retrieve_context_vector_search_only (r : VectorRetriever) (cfg : Settings)
    (query : String) : Except String (List (Document × ℚ)) :=
  match r.similarity_search_with_score query cfg.SEARCH_K_FINAL with
  | Except.error _ => Except.ok []
  | Except.ok [] => Except.ok []
  | Except.ok results_with_scores =>
      Except.ok (results_with_scores.mergeSort distance_le)

/-- A message sent to the chat model (`SystemMessage` / `HumanMessage` /
`AIMessage` of `langchain_core`). -/
inductive Message where
  | system (content : String)
  | human (content : String)
  | ai (content : String)
deriving DecidableEq, Repr

/-- The `chat_history` row of `database.py`. In the source
`retrieval_end_time` and `response_end_time` are `Optional[datetime]`
defaulting to `None`; `save_message_async` always supplies all three
timestamps, so they are embedded as plain rationals (default `0`). -/
structure ChatHistory where
  id : Option Nat := none
  session_id : String
  user_message : String
  bot_response : String
  is_synthetic : Bool := false
  user_chars : Nat := 0
  bot_chars : Nat := 0
  user_tokens : Nat := 0
  bot_tokens : Nat := 0
  request_start_time : ℚ := 0
  retrieval_end_time : ℚ := 0
  response_end_time : ℚ := 0
  retrieval_duration_sec : ℚ := 0
  generation_duration_sec : ℚ := 0
  total_duration_sec : ℚ := 0
deriving DecidableEq, Repr

/-- The LangGraph pipeline state (`RAGState` of `rag_chain.py`). -/
structure RAGState where
  question : String
  context : List Document
  answer : String
  history : List Message
  request_start_time : ℚ
  retrieval_end_time : ℚ
  new_message_id : Option Nat
  is_synthetic : Bool
deriving DecidableEq, Repr

/-- External collaborators and clock readings of one `RAGChain` request: the
session's stored turns as returned by the `load_history` query (already
filtered to the session and ordered by `request_start_time`), the async LLM,
the two token counters, the database commit (which assigns the fresh row id),
the successive `datetime.now()` readings, and the formatted current date. -/
structure Env where
  history_records : List ChatHistory
  ainvoke : List Message → Except String String
  get_num_tokens_from_messages : List Message → Except String Nat
  get_num_tokens : String → Except String Nat
  persist : ChatHistory → Except String Nat
  start_now : ℚ
  initial_retrieval_now : ℚ
  retrieval_now : ℚ
  response_now : ℚ
  current_date : String

/-- Placeholder of the system template replaced by the concatenated context. -/
def context_placeholder : String := "\x7b\x7bINSERIR_CONTEXTO_AQUI\x7d\x7d"

/-- Placeholder of the system template replaced by the current date. -/
def date_placeholder : String := "\x7b\x7bDATA_ATUAL\x7d\x7d"

/-- The fixed system-instruction template of `RAGChain.__init__`. The long
Portuguese persona, didactics and safety text is abridged here: only the two
placeholders are behaviourally relevant to the pipeline. -/
def system_prompt : String :=
  "## Identidade e Objetivo\nVocê é o Assistente Virtual Especialista no Programa Quita Goiás.\n\n**Data atual do sistema:** "
    ++ date_placeholder
    ++ "\n\n<documentos_oficiais>\n"
    ++ context_placeholder
    ++ "\n</documentos_oficiais>\n\n## Diretrizes de Comportamento, Protocolos de Resposta e Regras de Segurança (texto integral omitido)"

/-- The message list built by the `load_history` loop: each stored row becomes
a `HumanMessage` followed by an `AIMessage`, in query order. -/
def loaded_history (env : Env) : List Message :=
  env.history_records.foldr
    (fun record msgs =>
      Message.human record.user_message :: Message.ai record.bot_response :: msgs)
    []

/-- Graph node `load_history`: loads the session history, keeps
`request_start_time` and `is_synthetic`, resets `new_message_id`. -/
def load_history (env : Env) (state : RAGState) : RAGState :=
  { state with
    history := loaded_history env
    new_message_id := none
    is_synthetic := state.is_synthetic }

/-- Graph node `retrieve`: runs the two-stage retrieval on the question and
records `retrieval_end_time = now()` right after it returns. -/
def retrieve (r : VectorRetriever) (cfg : Settings) (env : Env)
    (state : RAGState) : Except String RAGState :=
  (retrieve_context r cfg state.question).map fun retrieved_docs =>
    { state with
      context := retrieved_docs
      retrieval_end_time := env.retrieval_now }

/-- The prompt assembly of `generate`: join the retrieved chunk contents with
blank lines, substitute them and the current date into the system template,
then send system prompt, full history, and the new question. -/
def build_messages (env : Env) (context : List Document)
    (history : List Message) (question : String) : List Message :=
  let docs_content := String.intercalate "\n\n" (context.map Document.page_content)
  let final_system_prompt :=
    (system_prompt.replace context_placeholder docs_content).replace
      date_placeholder env.current_date
  Message.system final_system_prompt :: history ++ [Message.human question]

/-- Method `save_message_async`: builds the `ChatHistory` row — each duration
is the difference of its two bounding timestamps — and commits it; the store
assigns the fresh id. Returns the id together with the committed row, or the
persistence error. -/
def save_message_async (env : Env) (session_id user_msg bot_msg : String)
    (is_synthetic : Bool) (user_chars bot_chars user_tokens bot_tokens : Nat)
    (request_start_time retrieval_end_time response_end_time : ℚ) :
    Except String (Nat × ChatHistory) :=
  let chat_entry : ChatHistory :=
    { session_id := session_id
      user_message := user_msg
      bot_response := bot_msg
      is_synthetic := is_synthetic
      user_chars := user_chars
      bot_chars := bot_chars
      user_tokens := user_tokens
      bot_tokens := bot_tokens
      request_start_time := request_start_time
      retrieval_end_time := retrieval_end_time
      response_end_time := response_end_time
      retrieval_duration_sec := retrieval_end_time - request_start_time
      generation_duration_sec := response_end_time - retrieval_end_time
      total_duration_sec := response_end_time - request_start_time }
  match env.persist chat_entry with
  | Except.error e => Except.error e
  | Except.ok new_id => Except.ok (new_id, { chat_entry with id := some new_id })

/-- Graph node `generate`: builds the grounded prompt, counts tokens
(best-effort, `0` on failure), calls the LLM exactly once; on LLM failure the
answer becomes the literal technical-error string with a null id and nothing
is persisted; on success one row is persisted (a commit failure propagates)
and its id stored. Besides the updated state, the rows committed during the
call are returned. -/
def generate (env : Env) (session_id : String) (state : RAGState) :
    Except String (RAGState × List ChatHistory) :=
  let user_msg := state.question
  let messages := build_messages env state.context state.history state.question
  let user_tokens :=
    match env.get_num_tokens_from_messages messages with
    | Except.ok n => n
    | Except.error _ => 0
  match env.ainvoke messages with
  | Except.error e =>
    Except.ok
      ({ state with answer := "Erro técnico: " ++ e, new_message_id := none }, [])
  | Except.ok answer =>
    let response_end_time := env.response_now
    let bot_tokens :=
      match env.get_num_tokens answer with
      | Except.ok n => n
      | Except.error _ => 0
    match save_message_async env session_id user_msg answer state.is_synthetic
        user_msg.length answer.length user_tokens bot_tokens
        state.request_start_time state.retrieval_end_time response_end_time with
    | Except.error e => Except.error e
    | Except.ok (new_message_id, row) =>
      Except.ok
        ({ state with answer := answer, new_message_id := some new_message_id },
          [row])

/-- The value returned by `generate_response`:
`{"answer": ..., "message_id": ...}`. -/
structure GenerateResult where
  answer : String
  message_id : Option Nat
deriving DecidableEq, Repr

/-- Public entry point `generate_response`: seeds the initial state (both
timestamps read from `datetime.now()`), runs the compiled graph
`load_history → retrieve → generate`, and projects the answer and the new
message id. The rows committed during the run are returned alongside. -/
def generate_response (r : VectorRetriever) (cfg : Settings) (env : Env)
    (session_id question : String) (is_synthetic : Bool) :
    Except String (GenerateResult × List ChatHistory) :=
  let initial_state : RAGState :=
    { question := question
      context := []
      answer := ""
      history := []
      request_start_time := env.start_now
      retrieval_end_time := env.initial_retrieval_now
      new_message_id := none
      is_synthetic := is_synthetic }
  match retrieve r cfg env (load_history env initial_state) with
  | Except.error e => Except.error e
  | Except.ok after_retrieve =>
    match generate env session_id after_retrieve with
    | Except.error e => Except.error e
    | Except.ok (final_state, rows) =>
      Except.ok
        ({ answer := final_state.answer, message_id := final_state.new_message_id },
          rows)

/-! Generic facts about the two comparators and shared evaluation lemmas. -/

/-- The descending re-rank comparator is transitive. -/
theorem rerank_le_trans (a b c : (Document × ℚ) × ℚ)
    (hab : rerank_le a b = true) (hbc : rerank_le b c = true) :
    rerank_le a c = true := by
  simp only [rerank_le, decide_eq_true_eq] at hab hbc ⊢
  exact le_trans hbc hab

/-- The descending re-rank comparator is total. -/
theorem rerank_le_total (a b : (Document × ℚ) × ℚ) :
    (rerank_le a b || rerank_le b a) = true := by
  simp only [rerank_le, Bool.or_eq_true, decide_eq_true_eq]
  exact le_total b.2 a.2

/-- In a list that is pairwise non-increasing in the second component, every
element's second component is bounded by the head's. -/
theorem pairwise_desc_head_max (l : List (Document × ℚ))
    (hpw : List.Pairwise (fun a b : Document × ℚ => b.2 ≤ a.2) l)
    (hne : l ≠ []) : ∀ p ∈ l, p.2 ≤ (l.head hne).2 := by
  cases l with
  | nil => exact absurd rfl hne
  | cons hd tl =>
    intro p hp
    rcases List.mem_cons.mp hp with hph | hpt
    · exact le_of_eq (by rw [hph, List.head_cons])
    · exact (List.pairwise_cons.mp hpw).1 p hpt

/-- The ascending distance comparator is transitive. -/
theorem distance_le_trans (a b c : Document × ℚ)
    (hab : distance_le a b = true) (hbc : distance_le b c = true) :
    distance_le a c = true := by
  simp only [distance_le, decide_eq_true_eq] at hab hbc ⊢
  exact le_trans hab hbc

/-- The ascending distance comparator is total. -/
theorem distance_le_total (a b : Document × ℚ) :
    (distance_le a b || distance_le b a) = true := by
  simp only [distance_le, Bool.or_eq_true, decide_eq_true_eq]
  exact le_total a.2 b.2

/-- Evaluation of Recall+Rerank when both external calls succeed: the result
is the recall list zipped with its scores, stably sorted descending,
truncated, and projected back to (document, re-rank score) pairs. -/
theorem retrieve_with_scores_eval (r : VectorRetriever) (cfg : Settings)
    (query : String) (cands : List (Document × ℚ)) (scores : List ℚ)
    (hsearch : r.similarity_search_with_score query cfg.SEARCH_K_RAW = Except.ok cands)
    (hpredict : r.predict (cands.map fun p => (query, p.1.page_content)) = Except.ok scores) :
    retrieve_context_with_scores r cfg query =
      Except.ok ((((cands.zip scores).mergeSort rerank_le).take cfg.SEARCH_K_FINAL).map
        fun p => (p.1.1, p.2)) := by
  cases cands with
  | nil => simp [retrieve_context_with_scores, hsearch]
  | cons hd tl =>
    simp only [retrieve_context_with_scores, hsearch]
    rw [hpredict]

/-- Evaluation of Recall-only when the store call succeeds: the result is the
recall list stably sorted ascending by distance. -/
theorem vector_search_only_eval (r : VectorRetriever) (cfg : Settings)
    (query : String) (res : List (Document × ℚ))
    (hsearch : r.similarity_search_with_score query cfg.SEARCH_K_FINAL = Except.ok res) :
    retrieve_context_vector_search_only r cfg query =
      Except.ok (res.mergeSort distance_le) := by
  cases res with
  | nil => simp [retrieve_context_vector_search_only, hsearch]
  | cons hd tl =>
    simp only [retrieve_context_vector_search_only, hsearch]

/-- C1: for every query, Recall+Rerank (`retrieve_context_with_scores`) is the
recall candidates re-sorted by relevance score in non-increasing order, ties
broken by original recall order (stable sort), truncated to at most
`SEARCH_K_FINAL`; hence the length is bounded by `SEARCH_K_FINAL`, the scores
are non-increasing across rank order, and in a non-empty result the score at
rank 1 is highest or equal-highest. -/
theorem C1_rerank_stable_sort_truncation (r : VectorRetriever) (cfg : Settings)
    (query : String) (cands : List (Document × ℚ)) (scores : List ℚ)
    (hsearch : r.similarity_search_with_score query cfg.SEARCH_K_RAW = Except.ok cands)
    (hpredict : r.predict (cands.map fun p => (query, p.1.page_content)) = Except.ok scores) :
    ∃ out : List (Document × ℚ),
      retrieve_context_with_scores r cfg query = Except.ok out ∧
      out = (((cands.zip scores).mergeSort rerank_le).take cfg.SEARCH_K_FINAL).map
        (fun p => (p.1.1, p.2)) ∧
      out.length ≤ cfg.SEARCH_K_FINAL ∧
      List.Pairwise (fun a b : Document × ℚ => b.2 ≤ a.2) out ∧
      (∀ a b : (Document × ℚ) × ℚ, [a, b].Sublist (cands.zip scores) → b.2 ≤ a.2 →
        [a, b].Sublist ((cands.zip scores).mergeSort rerank_le)) ∧
      (∀ hne : out ≠ [], ∀ p ∈ out, p.2 ≤ (out.head hne).2) := by
  refine ⟨_, retrieve_with_scores_eval r cfg query cands scores hsearch hpredict,
    rfl, ?_, ?_, ?_, ?_⟩
  · simp only [List.length_map, List.length_take]
    exact min_le_left _ _
  · have hsorted := List.sorted_mergeSort rerank_le_trans rerank_le_total (cands.zip scores)
    have htake := List.Pairwise.sublist
      (List.take_sublist cfg.SEARCH_K_FINAL ((cands.zip scores).mergeSort rerank_le)) hsorted
    rw [List.pairwise_map]
    refine htake.imp ?_
    intro x y hxy
    simpa [rerank_le] using hxy
  · intro a b hsub hba
    exact List.pair_sublist_mergeSort rerank_le_trans rerank_le_total
      (by simpa [rerank_le] using hba) hsub
  · have hsorted := List.sorted_mergeSort rerank_le_trans rerank_le_total (cands.zip scores)
    have htake := List.Pairwise.sublist
      (List.take_sublist cfg.SEARCH_K_FINAL ((cands.zip scores).mergeSort rerank_le)) hsorted
    have hpw : List.Pairwise (fun a b : Document × ℚ => b.2 ≤ a.2)
        ((((cands.zip scores).mergeSort rerank_le).take cfg.SEARCH_K_FINAL).map
          fun p => (p.1.1, p.2)) := by
      rw [List.pairwise_map]
      refine htake.imp ?_
      intro x y hxy
      simpa [rerank_le] using hxy
    exact fun hne p hp => pairwise_desc_head_max _ hpw hne p hp

/-- C3: if the cross-encoder call raises during re-ranking,
`retrieve_context_with_scores` returns the empty sequence for that call
instead of propagating the exception. -/
theorem C3_scorer_failure_degrades_to_empty (r : VectorRetriever)
    (cfg : Settings) (query : String) (cands : List (Document × ℚ)) (e : String)
    (hsearch : r.similarity_search_with_score query cfg.SEARCH_K_RAW = Except.ok cands)
    (hpredict : r.predict (cands.map fun p => (query, p.1.page_content)) = Except.error e) :
    retrieve_context_with_scores r cfg query = Except.ok [] := by
  cases cands with
  | nil => simp [retrieve_context_with_scores, hsearch]
  | cons hd tl =>
    simp only [retrieve_context_with_scores, hsearch]
    rw [hpredict]

/-- C6: Recall-only retrieval consults the vector store only at
`k = SEARCH_K_FINAL` and returns that recall list stably sorted by distance
ascending, so scores are non-decreasing across rank order and the length is
`SEARCH_K_FINAL`, or fewer when the store holds fewer chunks (the store
contract `res.length = min SEARCH_K_FINAL n` for a store of `n` chunks is the
hypothesis `hstore`). -/
theorem C6_vector_only_requests_k_final_sorted_ascending (r : VectorRetriever)
    (cfg : Settings) (query : String) (res : List (Document × ℚ)) (n : Nat)
    (hsearch : r.similarity_search_with_score query cfg.SEARCH_K_FINAL = Except.ok res)
    (hstore : res.length = min cfg.SEARCH_K_FINAL n) :
    ∃ out : List (Document × ℚ),
      retrieve_context_vector_search_only r cfg query = Except.ok out ∧
      out = res.mergeSort distance_le ∧
      List.Pairwise (fun a b : Document × ℚ => a.2 ≤ b.2) out ∧
      out.length = min cfg.SEARCH_K_FINAL n ∧
      (∀ r2 : VectorRetriever,
        r2.similarity_search_with_score query cfg.SEARCH_K_FINAL = Except.ok res →
        retrieve_context_vector_search_only r2 cfg query = Except.ok out) := by
  refine ⟨res.mergeSort distance_le,
    vector_search_only_eval r cfg query res hsearch, rfl, ?_, ?_, ?_⟩
  · have hsorted := List.sorted_mergeSort distance_le_trans distance_le_total res
    refine hsorted.imp ?_
    intro x y hxy
    simpa [distance_le] using hxy
  · rw [List.length_mergeSort, hstore]
  · intro r2 hsearch2
    exact vector_search_only_eval r2 cfg query res hsearch2

/-- C7: when the vector store returns zero chunks at the recall step,
`retrieve_context_with_scores` returns the empty sequence without error, and
the result does not depend on the cross-encoder at all (the scorer is not
invoked): any retriever differing only in `predict` gives the same empty
result. -/
theorem C7_empty_recall_empty_result_without_scorer (r : VectorRetriever)
    (cfg : Settings) (query : String)
    (hsearch : r.similarity_search_with_score query cfg.SEARCH_K_RAW = Except.ok []) :
    retrieve_context_with_scores r cfg query = Except.ok [] ∧
    ∀ p : List (String × String) → Except String (List ℚ),
      retrieve_context_with_scores { r with predict := p } cfg query = Except.ok [] := by
  constructor
  · simp [retrieve_context_with_scores, hsearch]
  · intro p
    simp [retrieve_context_with_scores, hsearch]

/-- C9: the score-free retrieval `retrieve_context` is exactly the projection
of the scored retrieval `retrieve_context_with_scores` onto the first (the
document) components, in the same order. -/
theorem C9_retrieve_context_is_projection (r : VectorRetriever) (cfg : Settings)
    (query : String) (out : List (Document × ℚ))
    (h : retrieve_context_with_scores r cfg query = Except.ok out) :
    retrieve_context r cfg query = Except.ok (out.map Prod.fst) := by
  simp [retrieve_context, h, Except.map]

/-- C10: Recall-only retrieval also degrades to an empty sequence on failure:
a vector-store exception inside `retrieve_context_vector_search_only` yields
an empty list rather than propagating. -/
theorem C10_vector_only_swallows_search_error (r : VectorRetriever)
    (cfg : Settings) (query : String) (e : String)
    (hsearch : r.similarity_search_with_score query cfg.SEARCH_K_FINAL = Except.error e) :
    retrieve_context_vector_search_only r cfg query = Except.ok [] := by
  simp [retrieve_context_vector_search_only, hsearch]

/-- The row committed by a successful `save_message_async` is the built
`chat_entry` with the freshly assigned id. -/
theorem save_message_rows (env : Env) (session_id user_msg bot_msg : String)
    (is_synthetic : Bool) (user_chars bot_chars user_tokens bot_tokens : Nat)
    (t1 t2 t3 : ℚ) (i : Nat) (row : ChatHistory)
    (h : save_message_async env session_id user_msg bot_msg is_synthetic
      user_chars bot_chars user_tokens bot_tokens t1 t2 t3 = Except.ok (i, row)) :
    row =
      { id := some i
        session_id := session_id
        user_message := user_msg
        bot_response := bot_msg
        is_synthetic := is_synthetic
        user_chars := user_chars
        bot_chars := bot_chars
        user_tokens := user_tokens
        bot_tokens := bot_tokens
        request_start_time := t1
        retrieval_end_time := t2
        response_end_time := t3
        retrieval_duration_sec := t2 - t1
        generation_duration_sec := t3 - t2
        total_duration_sec := t3 - t1 } := by
  simp only [save_message_async] at h
  split at h
  · simp at h
  · simp only [Except.ok.injEq, Prod.mk.injEq] at h
    obtain ⟨h1, h2⟩ := h
    subst h1
    exact h2.symm

/-- Every row committed by the `generate` node carries the state's
`is_synthetic` flag and the state's bounding timestamps, with each stored
duration equal to the difference of its two bounding timestamps. -/
theorem generate_rows_fields (env : Env) (session_id : String) (state : RAGState)
    (out : RAGState) (rows : List ChatHistory)
    (h : generate env session_id state = Except.ok (out, rows)) :
    ∀ row ∈ rows,
      row.is_synthetic = state.is_synthetic ∧
      row.request_start_time = state.request_start_time ∧
      row.retrieval_end_time = state.retrieval_end_time ∧
      row.response_end_time = env.response_now ∧
      row.retrieval_duration_sec = state.retrieval_end_time - state.request_start_time ∧
      row.generation_duration_sec = env.response_now - state.retrieval_end_time ∧
      row.total_duration_sec = env.response_now - state.request_start_time := by
  intro row hrow
  simp only [generate] at h
  split at h
  · simp only [Except.ok.injEq, Prod.mk.injEq] at h
    rw [← h.2] at hrow
    simp at hrow
  · split at h
    · simp at h
    · rename_i new_id row2 hsave
      simp only [Except.ok.injEq, Prod.mk.injEq] at h
      rw [← h.2] at hrow
      rw [List.mem_singleton] at hrow
      subst hrow
      have hr := save_message_rows _ _ _ _ _ _ _ _ _ _ _ _ _ _ hsave
      subst hr
      exact ⟨rfl, rfl, rfl, rfl, rfl, rfl, rfl⟩

/-- Every row committed by a full `generate_response` run carries the entry
point's `is_synthetic` argument and the run's clock readings, each stored
duration being the difference of its two bounding timestamps. -/
theorem generate_response_rows_fields (r : VectorRetriever) (cfg : Settings)
    (env : Env) (session_id question : String) (is_syn : Bool)
    (res : GenerateResult) (rows : List ChatHistory)
    (h : generate_response r cfg env session_id question is_syn = Except.ok (res, rows)) :
    ∀ row ∈ rows,
      row.is_synthetic = is_syn ∧
      row.request_start_time = env.start_now ∧
      row.retrieval_end_time = env.retrieval_now ∧
      row.response_end_time = env.response_now ∧
      row.retrieval_duration_sec = env.retrieval_now - env.start_now ∧
      row.generation_duration_sec = env.response_now - env.retrieval_now ∧
      row.total_duration_sec = env.response_now - env.start_now := by
  intro row hrow
  simp only [generate_response, retrieve, load_history, Except.map] at h
  split at h
  · simp at h
  · rename_i st2 hretr
    split at h
    · simp at h
    · rename_i out2 rows2 hgen
      simp only [Except.ok.injEq, Prod.mk.injEq] at h
      rw [← h.2] at hrow
      split at hretr
      · simp at hretr
      · simp only [Except.ok.injEq] at hretr
        subst hretr
        have := generate_rows_fields env session_id _ out2 rows2 hgen row hrow
        simpa using this

/-- C2: if the LLM call raises during the GENERATE stage, `generate_response`
returns an answer equal to the literal prefix "Erro técnico: " followed by
the exception message, with a null message identifier, and commits no
Conversation Turn row for that call. -/
theorem C2_llm_failure_error_string_nothing_persisted (r : VectorRetriever)
    (cfg : Settings) (env : Env) (session_id question : String) (is_syn : Bool)
    (docs : List Document) (e : String)
    (hret : retrieve_context r cfg question = Except.ok docs)
    (hllm : env.ainvoke (build_messages env docs (loaded_history env) question) =
      Except.error e) :
    generate_response r cfg env session_id question is_syn =
      Except.ok ({ answer := "Erro técnico: " ++ e, message_id := none }, []) := by
  simp only [generate_response, retrieve, load_history, Except.map, hret]
  simp only [generate]
  rw [hllm]

/-- C4: every Conversation Turn row committed by a successful generation has
`retrieval_duration_sec ≥ 0` whenever `retrieval_end_time ≥
request_start_time`, `generation_duration_sec ≥ 0` whenever
`response_end_time ≥ retrieval_end_time`, and `total_duration_sec` equal to
`retrieval_duration_sec + generation_duration_sec` (exactly, hence within any
floating-point tolerance), since each duration is the difference of its two
bounding timestamps. -/
theorem C4_persisted_duration_invariants (r : VectorRetriever) (cfg : Settings)
    (env : Env) (session_id question : String) (is_syn : Bool)
    (res : GenerateResult) (rows : List ChatHistory) (row : ChatHistory)
    (h : generate_response r cfg env session_id question is_syn = Except.ok (res, rows))
    (hrow : row ∈ rows) :
    (row.request_start_time ≤ row.retrieval_end_time →
      0 ≤ row.retrieval_duration_sec) ∧
    (row.retrieval_end_time ≤ row.response_end_time →
      0 ≤ row.generation_duration_sec) ∧
    row.total_duration_sec = row.retrieval_duration_sec + row.generation_duration_sec := by
  obtain ⟨-, hreq, hret, hres, hdr, hdg, hdt⟩ :=
    generate_response_rows_fields r cfg env session_id question is_syn res rows h row hrow
  refine ⟨?_, ?_, ?_⟩
  · intro hle
    rw [hdr]
    rw [hreq, hret] at hle
    exact sub_nonneg.mpr hle
  · intro hle
    rw [hdg]
    rw [hret, hres] at hle
    exact sub_nonneg.mpr hle
  · rw [hdt, hdr, hdg]
    ring

/-- C5: the `is_synthetic` flag stored in a committed Conversation Turn row
equals the `is_synthetic` argument passed to `generate_response`; moreover the
flag is preserved unchanged by the LOAD_HISTORY stage, by the RETRIEVE stage,
and by the GENERATE stage into every row it commits — it never flips anywhere
in the pipeline. -/
theorem C5_is_synthetic_flag_fidelity (r : VectorRetriever) (cfg : Settings)
    (env : Env) (session_id question : String) (is_syn : Bool)
    (res : GenerateResult) (rows : List ChatHistory) (row : ChatHistory)
    (h : generate_response r cfg env session_id question is_syn = Except.ok (res, rows))
    (hrow : row ∈ rows) :
    row.is_synthetic = is_syn ∧
    (∀ (env2 : Env) (state : RAGState),
      (load_history env2 state).is_synthetic = state.is_synthetic) ∧
    (∀ (r2 : VectorRetriever) (cfg2 : Settings) (env2 : Env) (state st2 : RAGState),
      retrieve r2 cfg2 env2 state = Except.ok st2 →
      st2.is_synthetic = state.is_synthetic) ∧
    (∀ (env2 : Env) (sid2 : String) (state out2 : RAGState)
      (rows2 : List ChatHistory) (row2 : ChatHistory),
      generate env2 sid2 state = Except.ok (out2, rows2) → row2 ∈ rows2 →
      row2.is_synthetic = state.is_synthetic) := by
  refine ⟨?_, ?_, ?_, ?_⟩
  · exact (generate_response_rows_fields r cfg env session_id question is_syn
      res rows h row hrow).1
  · intro env2 state
    rfl
  · intro r2 cfg2 env2 state st2 hretr
    simp only [retrieve, Except.map] at hretr
    split at hretr
    · simp at hretr
    · simp only [Except.ok.injEq] at hretr
      rw [← hretr]
  · intro env2 sid2 state out2 rows2 row2 hgen hrow2
    exact (generate_rows_fields env2 sid2 state out2 rows2 hgen row2 hrow2).1

/-- C8: whenever `generate_response` returns, it returns an answer string,
and the message identifier in its result is null if and only if the LLM
generation step failed; on a successful generation the returned identifier is
the non-null identifier of the one persisted turn row (a persistence failure
propagates as an exception instead of returning, per the source). -/
theorem C8_message_id_null_iff_llm_failed (r : VectorRetriever) (cfg : Settings)
    (env : Env) (session_id question : String) (is_syn : Bool)
    (res : GenerateResult) (rows : List ChatHistory)
    (h : generate_response r cfg env session_id question is_syn = Except.ok (res, rows)) :
    ∃ docs : List Document,
      retrieve_context r cfg question = Except.ok docs ∧
      (res.message_id = none ↔
        ∃ e, env.ainvoke (build_messages env docs (loaded_history env) question) =
          Except.error e) ∧
      (∀ a, env.ainvoke (build_messages env docs (loaded_history env) question) =
          Except.ok a →
        res.answer = a ∧
        ∃ (i : Nat) (row2 : ChatHistory),
          res.message_id = some i ∧ rows = [row2] ∧ row2.id = some i) ∧
      (∀ e, env.ainvoke (build_messages env docs (loaded_history env) question) =
          Except.error e →
        res.answer = "Erro técnico: " ++ e ∧ res.message_id = none ∧ rows = []) := by
  simp only [generate_response, retrieve, load_history, Except.map] at h
  split at h
  · simp at h
  · rename_i st2 hretr
    split at h
    · simp at h
    · rename_i out2 rows2 hgen
      simp only [Except.ok.injEq, Prod.mk.injEq] at h
      obtain ⟨hres, hrows⟩ := h
      split at hretr
      · simp at hretr
      · rename_i docs hrc
        simp only [Except.ok.injEq] at hretr
        subst hretr
        refine ⟨docs, hrc, ?_⟩
        simp only [generate] at hgen
        split at hgen
        · rename_i e0 hllm
          simp only [Except.ok.injEq, Prod.mk.injEq] at hgen
          obtain ⟨hout, hrows2⟩ := hgen
          subst hout
          subst hrows2
          refine ⟨?_, ?_, ?_⟩
          · rw [← hres]
            simp only [true_iff]
            exact ⟨e0, hllm⟩
          · intro a ha
            rw [ha] at hllm
            simp at hllm
          · intro e1 he1
            rw [he1] at hllm
            simp only [Except.error.injEq] at hllm
            rw [← hres, ← hrows, hllm]
            exact ⟨rfl, rfl, rfl⟩
        · rename_i ans hllm
          split at hgen
          · simp at hgen
          · rename_i nid row2 hsave
            simp only [Except.ok.injEq, Prod.mk.injEq] at hgen
            obtain ⟨hout, hrows2⟩ := hgen
            subst hout
            subst hrows2
            refine ⟨?_, ?_, ?_⟩
            · rw [← hres]
              constructor
              · intro hnone
                simp at hnone
              · rintro ⟨e, he⟩
                rw [he] at hllm
                simp at hllm
            · intro a ha
              rw [ha] at hllm
              simp only [Except.ok.injEq] at hllm
              have hrowid := save_message_rows _ _ _ _ _ _ _ _ _ _ _ _ _ _ hsave
              refine ⟨by rw [← hres, hllm], nid, row2, by rw [← hres], by rw [← hrows], ?_⟩
              rw [hrowid]
            · intro e1 he1
              rw [he1] at hllm
              simp at hllm

/-! Concrete instances showing each theorem's hypotheses are satisfiable. -/

/-- Demo chunk. -/
def doc_a : Document := { page_content := "alpha" }

/-- Demo chunk. -/
def doc_b : Document := { page_content := "beta" }

/-- Demo chunk. -/
def doc_c : Document := { page_content := "gama" }

/-- Demo chunk. -/
def doc_d : Document := { page_content := "delta" }

/-- Demo query. -/
def demo_query : String := "q"

/-- The default configuration (`SEARCH_K_RAW = 20`, `SEARCH_K_FINAL = 3`). -/
def demo_settings : Settings := {}

/-- Demo recall list with distance scores. -/
def demo_candidates : List (Document × ℚ) :=
  [(doc_a, 1), (doc_b, 2), (doc_c, 3), (doc_d, 4)]

/-- Demo re-rank scores, with a tie between the second and third candidate. -/
def demo_scores : List ℚ := [1, 5, 5, 0]

/-- A store and scorer that both succeed. -/
def demo_retriever : VectorRetriever :=
  { similarity_search_with_score := fun _ _ => Except.ok demo_candidates
    predict := fun _ => Except.ok demo_scores }

/-- Demo exception message. -/
def demo_error : String := "boom"

/-- A retriever whose cross-encoder raises. -/
def failing_scorer_retriever : VectorRetriever :=
  { similarity_search_with_score := fun _ _ => Except.ok demo_candidates
    predict := fun _ => Except.error demo_error }

/-- A retriever over an empty store. -/
def empty_store_retriever : VectorRetriever :=
  { similarity_search_with_score := fun _ _ => Except.ok []
    predict := fun _ => Except.ok [] }

/-- A retriever whose store search raises. -/
def failing_store_retriever : VectorRetriever :=
  { similarity_search_with_score := fun _ _ => Except.error demo_error
    predict := fun _ => Except.ok [] }

/-- Recall result of a store holding only two chunks. -/
def demo_small_result : List (Document × ℚ) := [(doc_b, 2), (doc_a, 1)]

/-- A retriever over a store holding only two chunks. -/
def small_store_retriever : VectorRetriever :=
  { similarity_search_with_score := fun _ _ => Except.ok demo_small_result
    predict := fun _ => Except.ok [] }

/-- The expected Recall+Rerank output on `demo_retriever`: the tie at score 5
keeps recall order (`doc_b` before `doc_c`), `doc_d` is truncated away. -/
def demo_out : List (Document × ℚ) := [(doc_b, 5), (doc_c, 5), (doc_a, 1)]

/-- Demo session identifier. -/
def demo_session : String := "sessao-1"

/-- Demo question. -/
def demo_question : String := "oi"

/-- Demo LLM answer. -/
def demo_answer : String := "tudo bem"

/-- Demo LLM exception message. -/
def demo_llm_error : String := "timeout"

/-- Demo formatted current date. -/
def demo_date : String := "12/10/2026"

/-- A previously stored turn of the demo session. -/
def demo_prev_row : ChatHistory :=
  { session_id := demo_session, user_message := "a", bot_response := "b" }

/-- An environment in which every external call succeeds. -/
def demo_env : Env :=
  { history_records := [demo_prev_row]
    ainvoke := fun _ => Except.ok demo_answer
    get_num_tokens_from_messages := fun _ => Except.ok 11
    get_num_tokens := fun _ => Except.ok 5
    persist := fun _ => Except.ok 7
    start_now := 10
    initial_retrieval_now := 10
    retrieval_now := 12
    response_now := 15
    current_date := demo_date }

/-- The demo environment with an LLM that raises. -/
def failing_llm_env : Env :=
  { demo_env with ainvoke := fun _ => Except.error demo_llm_error }

/-- The row `generate_response` commits in `demo_env` for `demo_question`. -/
def demo_row : ChatHistory :=
  { id := some 7
    session_id := demo_session
    user_message := demo_question
    bot_response := demo_answer
    is_synthetic := true
    user_chars := demo_question.length
    bot_chars := demo_answer.length
    user_tokens := 11
    bot_tokens := 5
    request_start_time := 10
    retrieval_end_time := 12
    response_end_time := 15
    retrieval_duration_sec := 12 - 10
    generation_duration_sec := 15 - 12
    total_duration_sec := 15 - 10 }

/-- The result `generate_response` returns in `demo_env`. -/
def demo_result : GenerateResult :=
  { answer := demo_answer, message_id := some 7 }

/-- Witness for C1 at a concrete retriever with a score tie. -/
theorem C1_rerank_stable_sort_truncation_witness :
    (demo_retriever.similarity_search_with_score demo_query
        demo_settings.SEARCH_K_RAW = Except.ok demo_candidates ∧
      demo_retriever.predict
        (demo_candidates.map fun p => (demo_query, p.1.page_content)) =
        Except.ok demo_scores) ∧
    (∃ out : List (Document × ℚ),
      retrieve_context_with_scores demo_retriever demo_settings demo_query =
        Except.ok out ∧
      out = (((demo_candidates.zip demo_scores).mergeSort rerank_le).take
        demo_settings.SEARCH_K_FINAL).map (fun p => (p.1.1, p.2)) ∧
      out.length ≤ demo_settings.SEARCH_K_FINAL ∧
      List.Pairwise (fun a b : Document × ℚ => b.2 ≤ a.2) out ∧
      (∀ a b : (Document × ℚ) × ℚ,
        [a, b].Sublist (demo_candidates.zip demo_scores) → b.2 ≤ a.2 →
        [a, b].Sublist ((demo_candidates.zip demo_scores).mergeSort rerank_le)) ∧
      (∀ hne : out ≠ [], ∀ p ∈ out, p.2 ≤ (out.head hne).2)) :=
  ⟨⟨rfl, rfl⟩,
    C1_rerank_stable_sort_truncation demo_retriever demo_settings demo_query
      demo_candidates demo_scores rfl rfl⟩

/-- Witness for C3 at a retriever whose scorer raises. -/
theorem C3_scorer_failure_degrades_to_empty_witness :
    (failing_scorer_retriever.similarity_search_with_score demo_query
        demo_settings.SEARCH_K_RAW = Except.ok demo_candidates ∧
      failing_scorer_retriever.predict
        (demo_candidates.map fun p => (demo_query, p.1.page_content)) =
        Except.error demo_error) ∧
    retrieve_context_with_scores failing_scorer_retriever demo_settings
      demo_query = Except.ok [] :=
  ⟨⟨rfl, rfl⟩,
    C3_scorer_failure_degrades_to_empty failing_scorer_retriever demo_settings
      demo_query demo_candidates demo_error rfl rfl⟩

/-- Witness for C6 at a store holding two chunks while `SEARCH_K_FINAL = 3`. -/
theorem C6_vector_only_requests_k_final_sorted_ascending_witness :
    (small_store_retriever.similarity_search_with_score demo_query
        demo_settings.SEARCH_K_FINAL = Except.ok demo_small_result ∧
      demo_small_result.length = min demo_settings.SEARCH_K_FINAL 2) ∧
    (∃ out : List (Document × ℚ),
      retrieve_context_vector_search_only small_store_retriever demo_settings
        demo_query = Except.ok out ∧
      out = demo_small_result.mergeSort distance_le ∧
      List.Pairwise (fun a b : Document × ℚ => a.2 ≤ b.2) out ∧
      out.length = min demo_settings.SEARCH_K_FINAL 2 ∧
      (∀ r2 : VectorRetriever,
        r2.similarity_search_with_score demo_query demo_settings.SEARCH_K_FINAL =
          Except.ok demo_small_result →
        retrieve_context_vector_search_only r2 demo_settings demo_query =
          Except.ok out)) :=
  ⟨⟨rfl, by decide⟩,
    C6_vector_only_requests_k_final_sorted_ascending small_store_retriever
      demo_settings demo_query demo_small_result 2 rfl (by decide)⟩

/-- Witness for C7 at an empty store. -/
theorem C7_empty_recall_empty_result_without_scorer_witness :
    (empty_store_retriever.similarity_search_with_score demo_query
        demo_settings.SEARCH_K_RAW = Except.ok []) ∧
    (retrieve_context_with_scores empty_store_retriever demo_settings
        demo_query = Except.ok [] ∧
      ∀ p : List (String × String) → Except String (List ℚ),
        retrieve_context_with_scores
          { empty_store_retriever with predict := p } demo_settings demo_query =
          Except.ok []) :=
  ⟨rfl,
    C7_empty_recall_empty_result_without_scorer empty_store_retriever
      demo_settings demo_query rfl⟩

-- Witness for C9: the concrete scored result and its projection.
unseal List.merge List.mergeSort in
theorem C9_retrieve_context_is_projection_witness :
    (retrieve_context_with_scores demo_retriever demo_settings demo_query =
      Except.ok demo_out) ∧
    retrieve_context demo_retriever demo_settings demo_query =
      Except.ok (demo_out.map Prod.fst) :=
  ⟨by rfl,
    C9_retrieve_context_is_projection demo_retriever demo_settings demo_query
      demo_out (by rfl)⟩

/-- Witness for C10 at a store whose search raises. -/
theorem C10_vector_only_swallows_search_error_witness :
    (failing_store_retriever.similarity_search_with_score demo_query
        demo_settings.SEARCH_K_FINAL = Except.error demo_error) ∧
    retrieve_context_vector_search_only failing_store_retriever demo_settings
      demo_query = Except.ok [] :=
  ⟨rfl,
    C10_vector_only_swallows_search_error failing_store_retriever demo_settings
      demo_query demo_error rfl⟩

/-- Witness for C2 at an environment whose LLM raises. -/
theorem C2_llm_failure_error_string_nothing_persisted_witness :
    (retrieve_context empty_store_retriever demo_settings demo_question =
        Except.ok [] ∧
      failing_llm_env.ainvoke
        (build_messages failing_llm_env [] (loaded_history failing_llm_env)
          demo_question) = Except.error demo_llm_error) ∧
    generate_response empty_store_retriever demo_settings failing_llm_env
      demo_session demo_question false =
      Except.ok
        ({ answer := "Erro técnico: " ++ demo_llm_error, message_id := none },
          []) :=
  ⟨⟨rfl, rfl⟩,
    C2_llm_failure_error_string_nothing_persisted empty_store_retriever
      demo_settings failing_llm_env demo_session demo_question false []
      demo_llm_error rfl rfl⟩

/-- Witness for C4 at a fully successful run. -/
theorem C4_persisted_duration_invariants_witness :
    (generate_response empty_store_retriever demo_settings demo_env demo_session
        demo_question true = Except.ok (demo_result, [demo_row]) ∧
      demo_row ∈ [demo_row]) ∧
    ((demo_row.request_start_time ≤ demo_row.retrieval_end_time →
        0 ≤ demo_row.retrieval_duration_sec) ∧
      (demo_row.retrieval_end_time ≤ demo_row.response_end_time →
        0 ≤ demo_row.generation_duration_sec) ∧
      demo_row.total_duration_sec =
        demo_row.retrieval_duration_sec + demo_row.generation_duration_sec) :=
  ⟨⟨rfl, List.mem_singleton.mpr rfl⟩,
    C4_persisted_duration_invariants empty_store_retriever demo_settings demo_env
      demo_session demo_question true demo_result [demo_row] demo_row rfl
      (List.mem_singleton.mpr rfl)⟩

/-- Witness for C5 at a fully successful run with `is_synthetic = true`. -/
theorem C5_is_synthetic_flag_fidelity_witness :
    (generate_response empty_store_retriever demo_settings demo_env demo_session
        demo_question true = Except.ok (demo_result, [demo_row]) ∧
      demo_row ∈ [demo_row]) ∧
    (demo_row.is_synthetic = true ∧
      (∀ (env2 : Env) (state : RAGState),
        (load_history env2 state).is_synthetic = state.is_synthetic) ∧
      (∀ (r2 : VectorRetriever) (cfg2 : Settings) (env2 : Env)
        (state st2 : RAGState),
        retrieve r2 cfg2 env2 state = Except.ok st2 →
        st2.is_synthetic = state.is_synthetic) ∧
      (∀ (env2 : Env) (sid2 : String) (state out2 : RAGState)
        (rows2 : List ChatHistory) (row2 : ChatHistory),
        generate env2 sid2 state = Except.ok (out2, rows2) → row2 ∈ rows2 →
        row2.is_synthetic = state.is_synthetic)) :=
  ⟨⟨rfl, List.mem_singleton.mpr rfl⟩,
    C5_is_synthetic_flag_fidelity empty_store_retriever demo_settings demo_env
      demo_session demo_question true demo_result [demo_row] demo_row rfl
      (List.mem_singleton.mpr rfl)⟩

/-- Witness for C8 at a fully successful run. -/
theorem C8_message_id_null_iff_llm_failed_witness :
    (generate_response empty_store_retriever demo_settings demo_env demo_session
        demo_question true = Except.ok (demo_result, [demo_row])) ∧
    (∃ docs : List Document,
      retrieve_context empty_store_retriever demo_settings demo_question =
        Except.ok docs ∧
      (demo_result.message_id = none ↔
        ∃ e, demo_env.ainvoke
          (build_messages demo_env docs (loaded_history demo_env)
            demo_question) = Except.error e) ∧
      (∀ a, demo_env.ainvoke
          (build_messages demo_env docs (loaded_history demo_env)
            demo_question) = Except.ok a →
        demo_result.answer = a ∧
        ∃ (i : Nat) (row2 : ChatHistory),
          demo_result.message_id = some i ∧ [demo_row] = [row2] ∧
          row2.id = some i) ∧
      (∀ e, demo_env.ainvoke
          (build_messages demo_env docs (loaded_history demo_env)
            demo_question) = Except.error e →
        demo_result.answer = "Erro técnico: " ++ e ∧
        demo_result.message_id = none ∧ [demo_row] = [])) :=
  ⟨rfl,
    C8_message_id_null_iff_llm_failed empty_store_retriever demo_settings
      demo_env demo_session demo_question true demo_result [demo_row] rfl⟩
